import Mathlib

/-!
Shallow embedding of the chat-session orchestration core of the
assistant-api backend (TypeScript), together with proofs of the
spec's testable properties.

Embedded source files:
  - src/src/services/mistral.service.ts   (sendMessageStream: SDK message
    conversion and document-context injection)
  - src/src/services/supabase.service.ts  (getChatSessionById,
    createChatSession, updateChatSession) over a pure model of the
    chat_sessions table; the row-level-security policies come from
    src/src/migrations/create_chat_sessions_table.sql
  - src/src/controllers/chat.controller.ts (streamMistralChat,
    analyzeChatDocuments), with the external collaborators (OCR provider,
    model stream, JSON.parse) modelled as explicit inputs.

Timestamps (createdAt/updatedAt) are not modelled: no claim mentions them
and they are maintained by a database trigger.
-/

namespace AssistantApi

/-- Message roles, from dto `MistralMessage.role : 'user' | 'assistant' | 'system'`. -/
inductive Role where
  | user
  | assistant
  | system
deriving DecidableEq, Repr

/-- Content chunks for multimodal messages, from dto `ContentChunk = TextChunk | ImageURLChunk`. -/
inductive ContentChunk where
  | text (text : String)
  | imageUrl (imageUrl : String)
deriving DecidableEq, Repr

/-- `MistralMessage.content : string | ContentChunk[]`. -/
inductive MessageContent where
  | str (s : String)
  | chunks (chunks : List ContentChunk)
deriving DecidableEq, Repr

/-- One conversational turn, from dto `MistralMessage`. -/
structure MistralMessage where
  role : Role
  content : MessageContent
deriving DecidableEq, Repr

/-- Extracted image of one OCR page, from dto `OCRImageObject`
(bounding-box fields omitted: never read by the embedded code). -/
structure OCRImageObject where
  id : String
  imageBase64 : Option String
deriving DecidableEq, Repr

/-- One OCR page, from dto `OCRPageObject` (dimensions omitted: never read). -/
structure OCRPageObject where
  index : Nat
  markdown : String
  images : List OCRImageObject
deriving DecidableEq, Repr

/-- OCR result of one uploaded file, from dto `OCRResponse`. -/
structure OCRResponse where
  pages : List OCRPageObject
  fileName : Option String
deriving DecidableEq, Repr

/-- Token accounting for one model call (`UsageInfo`); only `totalTokens`
is read by the embedded code. -/
structure UsageInfo where
  totalTokens : Nat
deriving DecidableEq, Repr

/-- A chat_sessions row, from dto `ChatSessionDto` (timestamps omitted). -/
structure ChatSessionDto where
  id : String
  userId : String
  messages : List MistralMessage
  documents : List OCRResponse
deriving DecidableEq, Repr

/-! ## mistral.service.ts: sendMessageStream -/

/-- The per-chunk branch of the `msg.content.map` in `sendMessageStream`:
a text chunk maps to a text chunk, anything else to an image_url chunk. -/
def convertContentChunk : ContentChunk → ContentChunk
  | ContentChunk.text t => ContentChunk.text t
  | ContentChunk.imageUrl u => ContentChunk.imageUrl u

/-- The `messages.map` body of `sendMessageStream`: SDK-format conversion.
For string content the role dispatch is system / assistant / else-user;
for chunk content it is user / assistant / else-system, exactly as in the
source. -/
def convertMessage (msg : MistralMessage) : MistralMessage :=
  match msg.content with
  | MessageContent.str s =>
    match msg.role with
    | Role.system => { role := Role.system, content := MessageContent.str s }
    | Role.assistant => { role := Role.assistant, content := MessageContent.str s }
    | Role.user => { role := Role.user, content := MessageContent.str s }
  | MessageContent.chunks cs =>
    let sdkContent := cs.map convertContentChunk
    match msg.role with
    | Role.user => { role := Role.user, content := MessageContent.chunks sdkContent }
    | Role.assistant => { role := Role.assistant, content := MessageContent.chunks sdkContent }
    | Role.system => { role := Role.system, content := MessageContent.chunks sdkContent }

/-- Content chunks contributed by one OCR page inside the
`doc.pages.forEach` loop: the page text, then one image_url chunk per
image whose `imageBase64` is truthy (absent or empty strings are skipped),
with a data-URI prefix added when missing. -/
def pageContentChunks (page : OCRPageObject) : List ContentChunk :=
  ContentChunk.text page.markdown ::
    page.images.filterMap (fun image =>
      match image.imageBase64 with
      | some b64 =>
        if b64 = "" then none
        else some (ContentChunk.imageUrl
          (if String.startsWith b64 "data:" then b64
           else "data:image/jpeg;base64," ++ b64))
      | none => none)

/-- The synthesized context message for one document inside the
`processedDocuments.forEach` loop: header text, per-page chunks, footer
text, wrapped in a user-role message. A document with no pages
contributes nothing (the else branch only logs a warning). -/
def docContextMessage (doc : OCRResponse) : Option MistralMessage :=
  let docName := doc.fileName.getD "Unknown Document"
  if doc.pages.length > 0 then
    some { role := Role.user,
           content := MessageContent.chunks
             (ContentChunk.text ("--- Document Context: " ++ docName ++ " ---") ::
              (doc.pages.map pageContentChunks).flatten ++
              [ContentChunk.text ("--- End Document Context: " ++ docName ++ " ---")]) }
  else none

/-- The full `documentContextMessages` array built by the forEach loop. -/
def documentContextMessages (processedDocuments : List OCRResponse) : List MistralMessage :=
  processedDocuments.filterMap docContextMessage

/-- JavaScript `Array.findIndex` on messages, with the element index
supplied to the predicate; `none` models the -1 result. -/
def findIndexFrom (p : Nat → MistralMessage → Bool) : Nat → List MistralMessage → Option Nat
  | _, [] => none
  | i, m :: ms => if p i m then some i else findIndexFrom p (i + 1) ms

/-- `sdkMessages.findIndex((msg, i) => msg.role === 'user' && i === sdkMessages.length - 1)`. -/
def lastUserIndex (msgs : List MistralMessage) : Option Nat :=
  findIndexFrom (fun i msg => decide (msg.role = Role.user) && decide (i = msgs.length - 1)) 0 msgs

/-- `arr.splice(i, 0, ...xs)`: insert `xs` at position `i`. -/
def spliceInsert (l : List MistralMessage) (i : Nat) (xs : List MistralMessage) : List MistralMessage :=
  l.take i ++ xs ++ l.drop i

/-- The document-context injection step of `sendMessageStream`: insert the
synthesized messages before the last message when that last message has
the user role, otherwise append them at the end. -/
def injectDocumentContext (sdkMessages : List MistralMessage)
    (processedDocuments : List OCRResponse) : List MistralMessage :=
  let ctx := documentContextMessages processedDocuments
  match lastUserIndex sdkMessages with
  | some lastIdx => spliceInsert sdkMessages lastIdx ctx
  | none => sdkMessages ++ ctx

/-- The message list `sendMessageStream` hands to `client.chat.stream`:
SDK conversion of the input messages, then context injection when
`processedDocuments` is non-empty. -/
def sendMessageStreamMessages (messages : List MistralMessage)
    (processedDocuments : List OCRResponse) : List MistralMessage :=
  let sdkMessages := messages.map convertMessage
  if processedDocuments.length > 0 then injectDocumentContext sdkMessages processedDocuments
  else sdkMessages

/-! ### Basic facts about the conversion step -/

theorem convertContentChunk_eq (c : ContentChunk) : convertContentChunk c = c := by
  cases c <;> rfl

theorem convertMessage_eq (msg : MistralMessage) : convertMessage msg = msg := by
  obtain ⟨role, content⟩ := msg
  cases content with
  | str s => cases role <;> rfl
  | chunks cs =>
    have hf : convertContentChunk = id := funext convertContentChunk_eq
    have h : cs.map convertContentChunk = cs := by rw [hf, List.map_id]
    cases role <;> simp [convertMessage, h]

theorem map_convertMessage (msgs : List MistralMessage) : msgs.map convertMessage = msgs := by
  have hf : convertMessage = id := funext convertMessage_eq
  rw [hf, List.map_id]

/-! ### Locating the final user message -/

theorem findIndexFrom_append_last (m : MistralMessage) (hm : m.role = Role.user)
    (n : Nat) :
    ∀ (init : List MistralMessage) (i : Nat), n = i + init.length →
    findIndexFrom (fun j msg => decide (msg.role = Role.user) && decide (j = n)) i (init ++ [m]) =
      some n := by
  intro init
  induction init with
  | nil =>
    intro i hi
    simp only [List.nil_append, findIndexFrom, hm]
    simp only [List.length_nil, Nat.add_zero] at hi
    simp [hi]
  | cons a rest ih =>
    intro i hi
    have hne : i ≠ n := by
      simp only [List.length_cons] at hi
      omega
    simp only [List.cons_append, findIndexFrom]
    rw [if_neg (by simp [hne])]
    exact ih (i + 1) (by simp only [List.length_cons] at hi; omega)

theorem lastUserIndex_append_last (init : List MistralMessage) (m : MistralMessage)
    (hm : m.role = Role.user) :
    lastUserIndex (init ++ [m]) = some init.length := by
  unfold lastUserIndex
  have hlen : (init ++ [m]).length - 1 = init.length := by simp
  rw [hlen]
  exact findIndexFrom_append_last m hm init.length init 0 (by omega)

/-- C1, main decomposition: with a trailing user message and a non-empty
document list, the injected output is the prior messages, then all
synthesized document messages, then the final user message. -/
theorem sendMessageStreamMessages_append_last
    (init : List MistralMessage) (lastMsg : MistralMessage) (docs : List OCRResponse)
    (hrole : lastMsg.role = Role.user) (hdocs : docs ≠ []) :
    sendMessageStreamMessages (init ++ [lastMsg]) docs =
      init ++ documentContextMessages docs ++ [lastMsg] := by
  unfold sendMessageStreamMessages
  rw [map_convertMessage]
  rw [if_pos (List.length_pos.mpr hdocs)]
  unfold injectDocumentContext
  rw [lastUserIndex_append_last init lastMsg hrole]
  simp only [spliceInsert, List.take_left, List.drop_left]

theorem documentContextMessages_length (docs : List OCRResponse)
    (h : ∀ d ∈ docs, d.pages ≠ []) :
    (documentContextMessages docs).length = docs.length := by
  induction docs with
  | nil => rfl
  | cons d ds ih =>
    have hd : d.pages ≠ [] := h d (List.mem_cons_self d ds)
    have hsome : ∃ msg, docContextMessage d = some msg := by
      unfold docContextMessage
      rw [if_pos (List.length_pos.mpr hd)]
      exact ⟨_, rfl⟩
    obtain ⟨msg, hmsg⟩ := hsome
    simp only [documentContextMessages, List.filterMap_cons, hmsg]
    simp only [List.length_cons]
    have := ih (fun x hx => h x (List.mem_cons_of_mem d hx))
    simp only [documentContextMessages] at this
    omega

/-- C1: for every message list ending in a user-role message and every
non-empty document list in which each document has at least one page, the
context-injection step of sendMessageStream places every synthesized
document message at an index strictly below the final user message's
index, and the final user message stays last. -/
theorem claim_C1_doc_placement
    (init : List MistralMessage) (lastMsg : MistralMessage) (docs : List OCRResponse)
    (hrole : lastMsg.role = Role.user) (hdocs : docs ≠ [])
    (hpages : ∀ d ∈ docs, d.pages ≠ []) :
    sendMessageStreamMessages (init ++ [lastMsg]) docs =
      init ++ documentContextMessages docs ++ [lastMsg]
    ∧ (documentContextMessages docs).length = docs.length
    ∧ (∀ j < (documentContextMessages docs).length,
        (sendMessageStreamMessages (init ++ [lastMsg]) docs)[init.length + j]? =
          (documentContextMessages docs)[j]?
        ∧ init.length + j < (sendMessageStreamMessages (init ++ [lastMsg]) docs).length - 1)
    ∧ (sendMessageStreamMessages (init ++ [lastMsg]) docs)[
        (sendMessageStreamMessages (init ++ [lastMsg]) docs).length - 1]? = some lastMsg := by
  have hout := sendMessageStreamMessages_append_last init lastMsg docs hrole hdocs
  refine ⟨hout, documentContextMessages_length docs hpages, ?_, ?_⟩
  · intro j hj
    constructor
    · rw [hout, List.append_assoc, List.getElem?_append_right (by omega)]
      have harith : init.length + j - init.length = j := by omega
      rw [harith, List.getElem?_append_left hj]
    · rw [hout]
      simp only [List.length_append, List.length_singleton]
      omega
  · rw [hout]
    have hlen : (init ++ documentContextMessages docs ++ [lastMsg]).length - 1 =
        (init ++ documentContextMessages docs).length := by simp
    rw [hlen, List.getElem?_append_right (Nat.le_refl _)]
    simp

/-- Witness for `claim_C1_doc_placement` at a concrete history and one
single-page document. -/
theorem claim_C1_doc_placement_witness :
    sendMessageStreamMessages
        ([{ role := Role.system, content := MessageContent.str "sys" }] ++
          [{ role := Role.user, content := MessageContent.str "question" }])
        [{ pages := [{ index := 0, markdown := "page one", images := [] }],
           fileName := some "contract.pdf" }] =
      [{ role := Role.system, content := MessageContent.str "sys" }] ++
        documentContextMessages
          [{ pages := [{ index := 0, markdown := "page one", images := [] }],
             fileName := some "contract.pdf" }] ++
        [{ role := Role.user, content := MessageContent.str "question" }]
    ∧ (documentContextMessages
        [{ pages := [{ index := 0, markdown := "page one", images := [] }],
           fileName := some "contract.pdf" }]).length = 1
    ∧ (∀ j < (documentContextMessages
          [{ pages := [{ index := 0, markdown := "page one", images := [] }],
             fileName := some "contract.pdf" }]).length,
        (sendMessageStreamMessages
            ([{ role := Role.system, content := MessageContent.str "sys" }] ++
              [{ role := Role.user, content := MessageContent.str "question" }])
            [{ pages := [{ index := 0, markdown := "page one", images := [] }],
               fileName := some "contract.pdf" }])[
          ([{ role := Role.system, content := MessageContent.str "sys" }] :
            List MistralMessage).length + j]? =
          (documentContextMessages
            [{ pages := [{ index := 0, markdown := "page one", images := [] }],
               fileName := some "contract.pdf" }])[j]?
        ∧ ([{ role := Role.system, content := MessageContent.str "sys" }] :
            List MistralMessage).length + j <
            (sendMessageStreamMessages
              ([{ role := Role.system, content := MessageContent.str "sys" }] ++
                [{ role := Role.user, content := MessageContent.str "question" }])
              [{ pages := [{ index := 0, markdown := "page one", images := [] }],
                 fileName := some "contract.pdf" }]).length - 1)
    ∧ (sendMessageStreamMessages
        ([{ role := Role.system, content := MessageContent.str "sys" }] ++
          [{ role := Role.user, content := MessageContent.str "question" }])
        [{ pages := [{ index := 0, markdown := "page one", images := [] }],
           fileName := some "contract.pdf" }])[
        (sendMessageStreamMessages
          ([{ role := Role.system, content := MessageContent.str "sys" }] ++
            [{ role := Role.user, content := MessageContent.str "question" }])
          [{ pages := [{ index := 0, markdown := "page one", images := [] }],
             fileName := some "contract.pdf" }]).length - 1]? =
      some { role := Role.user, content := MessageContent.str "question" } := by
  have h := claim_C1_doc_placement
    [{ role := Role.system, content := MessageContent.str "sys" }]
    { role := Role.user, content := MessageContent.str "question" }
    [{ pages := [{ index := 0, markdown := "page one", images := [] }],
       fileName := some "contract.pdf" }]
    rfl (by decide) (by decide)
  have h2 : (documentContextMessages
      [{ pages := [{ index := 0, markdown := "page one", images := [] }],
         fileName := some "contract.pdf" }]).length = 1 := by decide
  exact ⟨h.1, h2, h.2.2.1, h.2.2.2⟩

/-! ## supabase.service.ts: chat_sessions store

The chat_sessions table is a list of rows. Every query runs through a
client authenticated as `uid`, so the row-level-security policies of
create_chat_sessions_table.sql apply: SELECT and UPDATE see a row only
when `auth.uid() = user_id`. -/

/-- The SELECT/UPDATE RLS policy `auth.uid() = user_id` from the
chat_sessions migration. -/
def rlsSelectOwn (uid : String) (row : ChatSessionDto) : Bool :=
  row.userId == uid

/-- Rows returned by `.from('chat_sessions').select('*').eq('id', sessionId)`
under the RLS policy. -/
def dbSelectById (store : List ChatSessionDto) (sessionId uid : String) : List ChatSessionDto :=
  store.filter (fun row => rlsSelectOwn uid row && row.id == sessionId)

/-- PostgREST `.single()`: exactly one row, else an error (mapped to null
by every caller in supabase.service.ts). -/
def single : List ChatSessionDto → Option ChatSessionDto
  | [row] => some row
  | _ => none

/-- `getChatSessionById(sessionId, jwt)`: select by id, `.single()`,
null on error. -/
def getChatSessionById (store : List ChatSessionDto) (sessionId uid : String) :
    Option ChatSessionDto :=
  single (dbSelectById store sessionId uid)

/-- `createChatSession(userId, initialMessages, initialDocuments, jwt)`:
insert a new row; the store assigns `freshId`. Returns the new store and
the created row. -/
def createChatSession (store : List ChatSessionDto) (uid freshId : String)
    (initialMessages : List MistralMessage) (initialDocuments : List OCRResponse) :
    List ChatSessionDto × ChatSessionDto :=
  let row : ChatSessionDto :=
    { id := freshId, userId := uid, messages := initialMessages, documents := initialDocuments }
  (store ++ [row], row)

/-- The row-level effect of `.update({messages, documents}).eq('id', sessionId)`
under the UPDATE RLS policy: rows matching both the id filter and the
policy receive the new arrays, all others stay as they are. -/
def applyUpdate (sessionId uid : String) (updatedMessages : List MistralMessage)
    (updatedDocuments : List OCRResponse) (row : ChatSessionDto) : ChatSessionDto :=
  if row.id == sessionId && rlsSelectOwn uid row then
    { row with messages := updatedMessages, documents := updatedDocuments }
  else row

/-- `updateChatSession(sessionId, newMessages, newDocuments, jwt)`: fetch
the current session, return null without writing when it is missing,
otherwise write the appended arrays back with
`.update({...}).eq('id', sessionId)` under the UPDATE RLS policy and
return the updated row. -/
def updateChatSession (store : List ChatSessionDto) (sessionId uid : String)
    (newMessages : List MistralMessage) (newDocuments : List OCRResponse) :
    List ChatSessionDto × Option ChatSessionDto :=
  match getChatSessionById store sessionId uid with
  | none => (store, none)
  | some currentSession =>
    let updatedMessages := currentSession.messages ++ newMessages
    let updatedDocuments := currentSession.documents ++ newDocuments
    (store.map (applyUpdate sessionId uid updatedMessages updatedDocuments),
     some { currentSession with
              messages := updatedMessages, documents := updatedDocuments })

/-! ### Store lemmas -/

theorem single_eq_some_iff (rows : List ChatSessionDto) (s : ChatSessionDto) :
    single rows = some s ↔ rows = [s] := by
  cases rows with
  | nil => simp [single]
  | cons a t =>
    cases t with
    | nil => simp [single]
    | cons b t2 => simp [single]

theorem resolve_some_select (store : List ChatSessionDto) (sid uid : String)
    (s : ChatSessionDto) (h : getChatSessionById store sid uid = some s) :
    dbSelectById store sid uid = [s] :=
  (single_eq_some_iff _ _).mp h

theorem resolve_some_props (store : List ChatSessionDto) (sid uid : String)
    (s : ChatSessionDto) (h : getChatSessionById store sid uid = some s) :
    s ∈ store ∧ s.id = sid ∧ s.userId = uid := by
  have hsel := resolve_some_select store sid uid s h
  have hmem : s ∈ dbSelectById store sid uid := by rw [hsel]; exact List.mem_singleton.mpr rfl
  unfold dbSelectById at hmem
  rw [List.mem_filter] at hmem
  obtain ⟨hstore, hpred⟩ := hmem
  simp only [rlsSelectOwn, Bool.and_eq_true, beq_iff_eq] at hpred
  exact ⟨hstore, hpred.2, hpred.1⟩

/-- C6: resolution returns a session only when the requesting owner
matches; an id owned by someone else yields NotFound (none), never the
foreign session and never a distinct Forbidden outcome. -/
theorem claim_C6_resolve_ownership (store : List ChatSessionDto) (sid uid : String) :
    (∀ s, getChatSessionById store sid uid = some s → s.userId = uid ∧ s.id = sid)
    ∧ ((∀ t ∈ store, t.id = sid → t.userId ≠ uid) →
        getChatSessionById store sid uid = none) := by
  constructor
  · intro s h
    have := resolve_some_props store sid uid s h
    exact ⟨this.2.2, this.2.1⟩
  · intro h
    have hnil : dbSelectById store sid uid = [] := by
      unfold dbSelectById
      rw [List.filter_eq_nil_iff]
      intro t ht
      intro hpred
      simp only [rlsSelectOwn, Bool.and_eq_true, beq_iff_eq] at hpred
      exact h t ht hpred.2 hpred.1
    unfold getChatSessionById
    rw [hnil]
    rfl

/-- Witness for `claim_C6_resolve_ownership`: an existing id owned by
another user resolves to none. -/
theorem claim_C6_resolve_ownership_witness :
    getChatSessionById [{ id := "sessA", userId := "owner1", messages := [], documents := [] }]
      "sessA" "owner2" = none :=
  (claim_C6_resolve_ownership
    [{ id := "sessA", userId := "owner1", messages := [], documents := [] }]
    "sessA" "owner2").2 (by decide)

/-- C10: appending to a session id that does not resolve writes nothing
and returns null; the store is unchanged. -/
theorem claim_C10_update_missing_noop (store : List ChatSessionDto) (sid uid : String)
    (newMessages : List MistralMessage) (newDocuments : List OCRResponse)
    (h : getChatSessionById store sid uid = none) :
    updateChatSession store sid uid newMessages newDocuments = (store, none) := by
  unfold updateChatSession
  rw [h]

/-- Witness for `claim_C10_update_missing_noop` on a store holding an
unrelated session. -/
theorem claim_C10_update_missing_noop_witness :
    updateChatSession [{ id := "other", userId := "u1", messages := [], documents := [] }]
      "missing" "u1"
      [{ role := Role.user, content := MessageContent.str "hello" }] [] =
      ([{ id := "other", userId := "u1", messages := [], documents := [] }], none) :=
  claim_C10_update_missing_noop _ _ _ _ _ (by decide)

theorem applyUpdate_preserves_id (sid uid : String) (M : List MistralMessage)
    (D : List OCRResponse) (r : ChatSessionDto) : (applyUpdate sid uid M D r).id = r.id := by
  unfold applyUpdate
  split <;> rfl

theorem applyUpdate_preserves_userId (sid uid : String) (M : List MistralMessage)
    (D : List OCRResponse) (r : ChatSessionDto) :
    (applyUpdate sid uid M D r).userId = r.userId := by
  unfold applyUpdate
  split <;> rfl

theorem applyUpdate_matching (sid uid : String) (M : List MistralMessage)
    (D : List OCRResponse) (s : ChatSessionDto) (h1 : s.id = sid) (h2 : s.userId = uid) :
    applyUpdate sid uid M D s = { s with messages := M, documents := D } := by
  unfold applyUpdate
  rw [if_pos]
  simp [rlsSelectOwn, h1, h2]

theorem dbSelectById_map (sid uid : String) (f : ChatSessionDto → ChatSessionDto)
    (hid : ∀ r, (f r).id = r.id) (huid : ∀ r, (f r).userId = r.userId)
    (store : List ChatSessionDto) :
    dbSelectById (store.map f) sid uid = (dbSelectById store sid uid).map f := by
  induction store with
  | nil => rfl
  | cons a t ih =>
    have hp : (rlsSelectOwn uid (f a) && ((f a).id == sid)) =
        (rlsSelectOwn uid a && (a.id == sid)) := by
      simp [rlsSelectOwn, hid, huid]
    unfold dbSelectById at *
    simp only [List.map_cons, List.filter_cons, hp]
    cases hc : (rlsSelectOwn uid a && (a.id == sid)) with
    | false => simpa [hc] using ih
    | true => simp [hc, ih]

theorem resolve_map_applyUpdate (store : List ChatSessionDto) (sid uid : String)
    (M : List MistralMessage) (D : List OCRResponse) (s : ChatSessionDto)
    (h : getChatSessionById store sid uid = some s) :
    getChatSessionById (store.map (applyUpdate sid uid M D)) sid uid =
      some { s with messages := M, documents := D } := by
  have hprops := resolve_some_props store sid uid s h
  unfold getChatSessionById
  rw [dbSelectById_map sid uid _ (applyUpdate_preserves_id sid uid M D)
        (applyUpdate_preserves_userId sid uid M D) store,
      resolve_some_select store sid uid s h]
  simp only [List.map_cons, List.map_nil]
  rw [applyUpdate_matching sid uid M D s hprops.2.1 hprops.2.2]
  rfl

theorem updateChatSession_resolved_eq (store : List ChatSessionDto) (sid uid : String)
    (s : ChatSessionDto) (h : getChatSessionById store sid uid = some s)
    (newMessages : List MistralMessage) (newDocuments : List OCRResponse) :
    updateChatSession store sid uid newMessages newDocuments =
      (store.map (applyUpdate sid uid (s.messages ++ newMessages) (s.documents ++ newDocuments)),
       some { s with messages := s.messages ++ newMessages,
                     documents := s.documents ++ newDocuments }) := by
  unfold updateChatSession
  rw [h]

theorem resolve_after_create (store : List ChatSessionDto) (uid freshId : String)
    (initialMessages : List MistralMessage) (initialDocuments : List OCRResponse)
    (hfresh : ∀ t ∈ store, t.id ≠ freshId) :
    getChatSessionById (createChatSession store uid freshId initialMessages initialDocuments).fst
      freshId uid =
      some { id := freshId, userId := uid,
             messages := initialMessages, documents := initialDocuments } := by
  unfold createChatSession getChatSessionById dbSelectById
  simp only [List.filter_append]
  have hnil : store.filter
      (fun row => rlsSelectOwn uid row && (row.id == freshId)) = [] := by
    rw [List.filter_eq_nil_iff]
    intro t ht hpred
    simp only [rlsSelectOwn, Bool.and_eq_true, beq_iff_eq] at hpred
    exact hfresh t ht hpred.2
  rw [hnil]
  simp [single, rlsSelectOwn]

/-! ## chat.controller.ts: streamMistralChat

External collaborators appear as explicit inputs: `freshId` is the row id
the database would assign on insertion, `fileResults` gives the outcome of
download + OCR per entry of `filePaths` (none = the per-file try/catch
swallowed a failure), `chunks` is the finite provider stream and
`streamErr` says whether the provider's async iterator throws after
yielding those chunks. -/

/-- The system prompt from utils/prompts.ts. -/
def legaltrainPrompt : String :=
  "Du bist LegalTrain, ein hilfsbereiter und professioneller KI-Assistent, entwickelt von extrain.io in Deutschland. Dein Ziel ist es, dem Benutzer bei seinen Anfragen zu helfen und ihn dabei zu unterstützen, seine Arbeitsabläufe effizient und mit großer Präzision zu erfüllen."

/-- One unit of the provider stream: `chunk.data.usage` and
`chunk.data.choices[0].delta.content`, both possibly absent. -/
structure StreamChunk where
  usage : Option UsageInfo
  content : Option String
deriving DecidableEq, Repr

/-- The `tokenUsage` variable after the relay loop: every chunk whose
usage field is truthy overwrites the previous value. -/
def relayUsage (chunks : List StreamChunk) : Option UsageInfo :=
  chunks.foldl
    (fun tokenUsage c =>
      match c.usage with
      | some u => some u
      | none => tokenUsage)
    none

/-- The `assistantResponseContent` accumulator after the relay loop: every
chunk with truthy delta content (absent and empty strings are falsy) is
appended. -/
def relayText (chunks : List StreamChunk) : String :=
  chunks.foldl
    (fun acc c =>
      match c.content with
      | some t => if t = "" then acc else acc ++ t
      | none => acc)
    ""

/-- `usage_type` of a user_usage row: 'chat' or 'analysis'. -/
inductive UsageKind where
  | chat
  | analysis
deriving DecidableEq, Repr

/-- One row of the user_usage ledger table. -/
structure UsageRecord where
  userId : String
  usageType : UsageKind
  tokenCount : Nat
deriving DecidableEq, Repr

/-- `trackUserUsage`: append one ledger row. -/
def trackUserUsage (ledger : List UsageRecord) (uid : String) (kind : UsageKind)
    (tokens : Nat) : List UsageRecord :=
  ledger ++ [{ userId := uid, usageType := kind, tokenCount := tokens }]

/-- Observable outcome of one streamMistralChat request: final stores, the
X-Chat-Id header, the message list handed to the provider (none when the
request failed before the model call), the text streamed to the caller,
and whether the handler finished without entering its catch block. -/
structure RequestOutcome where
  store : List ChatSessionDto
  ledger : List UsageRecord
  headerId : Option String
  sentMessages : Option (List MistralMessage)
  streamed : String
  ok : Bool
deriving DecidableEq, Repr

/-- Steps 3-8 of streamMistralChat, after the session is resolved or
created: process files (failures skipped), combine documents, build the
provider message list, relay the stream, then on success track usage and
persist the exchange; on a mid-stream error skip both. -/
def streamMistralChatCore (store : List ChatSessionDto) (ledger : List UsageRecord)
    (userId prompt finalSessionId : String)
    (historyMessages : List MistralMessage) (existingDocuments : List OCRResponse)
    (fileResults : List (Option OCRResponse)) (chunks : List StreamChunk)
    (streamErr : Bool) : RequestOutcome :=
  let newlyProcessedDocuments := fileResults.filterMap id
  let allDocumentsForContext := existingDocuments ++ newlyProcessedDocuments
  let messagesToMistral : List MistralMessage :=
    { role := Role.system, content := MessageContent.str legaltrainPrompt } ::
      (historyMessages ++ [{ role := Role.user, content := MessageContent.str prompt }])
  let sentMessages := sendMessageStreamMessages messagesToMistral allDocumentsForContext
  let tokenUsage := relayUsage chunks
  let assistantResponseContent := relayText chunks
  if streamErr then
    { store := store, ledger := ledger, headerId := some finalSessionId,
      sentMessages := some sentMessages, streamed := assistantResponseContent, ok := false }
  else
    let ledger2 :=
      match tokenUsage with
      | some u => trackUserUsage ledger userId UsageKind.chat u.totalTokens
      | none => ledger
    let upd := updateChatSession store finalSessionId userId
      [{ role := Role.user, content := MessageContent.str prompt },
       { role := Role.assistant, content := MessageContent.str assistantResponseContent }]
      newlyProcessedDocuments
    { store := upd.fst, ledger := ledger2, headerId := some finalSessionId,
      sentMessages := some sentMessages, streamed := assistantResponseContent, ok := true }

/-- Step 1 of streamMistralChat: when the request carries a session id,
look it up; a request without an id performs no lookup (modelled as the
same NotFound outcome that triggers creation). -/
def resolveRequestedSession (store : List ChatSessionDto) (userId : String)
    (chatId : Option String) : Option ChatSessionDto :=
  match chatId with
  | some cid => getChatSessionById store cid userId
  | none => none

/-- streamMistralChat: validate the prompt, resolve the supplied session
id or create a placeholder (an unresolvable id is treated as a new
session, not an error), then run the core. An empty created id would make
the handler throw before setting the header. -/
def streamMistralChat (store : List ChatSessionDto) (ledger : List UsageRecord)
    (userId prompt : String) (chatId : Option String) (freshId : String)
    (fileResults : List (Option OCRResponse)) (chunks : List StreamChunk)
    (streamErr : Bool) : RequestOutcome :=
  if prompt = "" then
    { store := store, ledger := ledger, headerId := none,
      sentMessages := none, streamed := "", ok := false }
  else
    match resolveRequestedSession store userId chatId with
    | some session =>
      streamMistralChatCore store ledger userId prompt session.id
        session.messages session.documents fileResults chunks streamErr
    | none =>
      let created := createChatSession store userId freshId [] []
      if created.snd.id = "" then
        { store := created.fst, ledger := ledger, headerId := none,
          sentMessages := none, streamed := "", ok := false }
      else
        streamMistralChatCore created.fst ledger userId prompt created.snd.id
          [] [] fileResults chunks streamErr

/-! ### Controller path lemmas -/

theorem streamMistralChat_resolved_path (store : List ChatSessionDto)
    (ledger : List UsageRecord) (uid prompt cid freshId : String)
    (fileResults : List (Option OCRResponse)) (chunks : List StreamChunk)
    (streamErr : Bool) (s : ChatSessionDto)
    (hp : prompt ≠ "") (hs : getChatSessionById store cid uid = some s) :
    streamMistralChat store ledger uid prompt (some cid) freshId fileResults chunks streamErr =
      streamMistralChatCore store ledger uid prompt s.id s.messages s.documents
        fileResults chunks streamErr := by
  have hres : resolveRequestedSession store uid (some cid) = some s := hs
  unfold streamMistralChat
  rw [if_neg hp, hres]

theorem streamMistralChat_unresolved_path (store : List ChatSessionDto)
    (ledger : List UsageRecord) (uid prompt cid freshId : String)
    (fileResults : List (Option OCRResponse)) (chunks : List StreamChunk)
    (streamErr : Bool)
    (hp : prompt ≠ "") (hres : getChatSessionById store cid uid = none)
    (hfid : freshId ≠ "") :
    streamMistralChat store ledger uid prompt (some cid) freshId fileResults chunks streamErr =
      streamMistralChatCore
        (store ++ [{ id := freshId, userId := uid, messages := [], documents := [] }])
        ledger uid prompt freshId [] [] fileResults chunks streamErr := by
  have hres2 : resolveRequestedSession store uid (some cid) = none := hres
  unfold streamMistralChat
  rw [if_neg hp, hres2]
  simp only [createChatSession]
  rw [if_neg hfid]

theorem streamMistralChatCore_streamErr (store : List ChatSessionDto)
    (ledger : List UsageRecord) (uid prompt sid : String)
    (historyMessages : List MistralMessage) (existingDocuments : List OCRResponse)
    (fileResults : List (Option OCRResponse)) (chunks : List StreamChunk) :
    streamMistralChatCore store ledger uid prompt sid historyMessages existingDocuments
        fileResults chunks true =
      { store := store, ledger := ledger, headerId := some sid,
        sentMessages := some (sendMessageStreamMessages
          ({ role := Role.system, content := MessageContent.str legaltrainPrompt } ::
            (historyMessages ++ [{ role := Role.user, content := MessageContent.str prompt }]))
          (existingDocuments ++ fileResults.filterMap id)),
        streamed := relayText chunks, ok := false } := by
  unfold streamMistralChatCore
  rfl

theorem streamMistralChatCore_success (store : List ChatSessionDto)
    (ledger : List UsageRecord) (uid prompt cid : String)
    (historyMessages : List MistralMessage) (existingDocuments : List OCRResponse)
    (fileResults : List (Option OCRResponse)) (chunks : List StreamChunk)
    (s : ChatSessionDto) (hs : getChatSessionById store cid uid = some s) :
    streamMistralChatCore store ledger uid prompt cid historyMessages existingDocuments
        fileResults chunks false =
      { store := store.map (applyUpdate cid uid
          (s.messages ++ [{ role := Role.user, content := MessageContent.str prompt },
                          { role := Role.assistant,
                            content := MessageContent.str (relayText chunks) }])
          (s.documents ++ fileResults.filterMap id)),
        ledger := match relayUsage chunks with
          | some u => trackUserUsage ledger uid UsageKind.chat u.totalTokens
          | none => ledger,
        headerId := some cid,
        sentMessages := some (sendMessageStreamMessages
          ({ role := Role.system, content := MessageContent.str legaltrainPrompt } ::
            (historyMessages ++ [{ role := Role.user, content := MessageContent.str prompt }]))
          (existingDocuments ++ fileResults.filterMap id)),
        streamed := relayText chunks, ok := true } := by
  unfold streamMistralChatCore
  rw [if_neg Bool.false_ne_true]
  rw [updateChatSession_resolved_eq store cid uid s hs]

/-- Master lemma for a successful request against an existing session:
the full observable outcome. -/
theorem streamMistralChat_success_resolved (store : List ChatSessionDto)
    (ledger : List UsageRecord) (uid prompt cid freshId : String)
    (fileResults : List (Option OCRResponse)) (chunks : List StreamChunk)
    (s : ChatSessionDto)
    (hp : prompt ≠ "") (hs : getChatSessionById store cid uid = some s) :
    streamMistralChat store ledger uid prompt (some cid) freshId fileResults chunks false =
      { store := store.map (applyUpdate cid uid
          (s.messages ++ [{ role := Role.user, content := MessageContent.str prompt },
                          { role := Role.assistant,
                            content := MessageContent.str (relayText chunks) }])
          (s.documents ++ fileResults.filterMap id)),
        ledger := match relayUsage chunks with
          | some u => trackUserUsage ledger uid UsageKind.chat u.totalTokens
          | none => ledger,
        headerId := some cid,
        sentMessages := some (sendMessageStreamMessages
          ({ role := Role.system, content := MessageContent.str legaltrainPrompt } ::
            (s.messages ++ [{ role := Role.user, content := MessageContent.str prompt }]))
          (s.documents ++ fileResults.filterMap id)),
        streamed := relayText chunks, ok := true } := by
  have hprops := resolve_some_props store cid uid s hs
  rw [streamMistralChat_resolved_path store ledger uid prompt cid freshId fileResults chunks
        false s hp hs]
  rw [hprops.2.1]
  exact streamMistralChatCore_success store ledger uid prompt cid s.messages s.documents
    fileResults chunks s hs

/-- C2: when the model stream throws after emitting chunks, the handler
jumps to its catch block before trackUserUsage and updateChatSession run:
the ledger is untouched and the store keeps every session's messages and
documents (at most the pre-stream empty placeholder row was inserted). -/
theorem claim_C2_no_partial_persistence (store : List ChatSessionDto)
    (ledger : List UsageRecord) (uid prompt : String) (chatId : Option String)
    (freshId : String) (fileResults : List (Option OCRResponse))
    (chunks : List StreamChunk) (hchunks : chunks ≠ []) :
    (streamMistralChat store ledger uid prompt chatId freshId fileResults chunks true).ledger =
      ledger
    ∧ ((streamMistralChat store ledger uid prompt chatId freshId fileResults chunks true).store =
          store
        ∨ ∃ row : ChatSessionDto,
            (streamMistralChat store ledger uid prompt chatId freshId fileResults
                chunks true).store = store ++ [row]
            ∧ row.messages = [] ∧ row.documents = []) := by
  by_cases hp : prompt = ""
  · unfold streamMistralChat
    rw [if_pos hp]
    exact ⟨rfl, Or.inl rfl⟩
  · cases hsess : resolveRequestedSession store uid chatId with
    | some s =>
      unfold streamMistralChat
      rw [if_neg hp, hsess]
      exact ⟨rfl, Or.inl rfl⟩
    | none =>
      unfold streamMistralChat
      rw [if_neg hp, hsess]
      simp only [createChatSession]
      by_cases hfid : freshId = ""
      · rw [if_pos hfid]
        exact ⟨rfl, Or.inr ⟨_, rfl, rfl, rfl⟩⟩
      · rw [if_neg hfid]
        exact ⟨rfl, Or.inr ⟨_, rfl, rfl, rfl⟩⟩

/-- Witness for `claim_C2_no_partial_persistence`: a one-chunk stream that
errors against an existing session. -/
theorem claim_C2_no_partial_persistence_witness :
    (streamMistralChat [{ id := "sess1", userId := "u1", messages := [], documents := [] }]
        [] "u1" "hello" (some "sess1") "fresh" []
        [{ usage := none, content := some "partial answer" }] true).ledger = []
    ∧ ((streamMistralChat [{ id := "sess1", userId := "u1", messages := [], documents := [] }]
          [] "u1" "hello" (some "sess1") "fresh" []
          [{ usage := none, content := some "partial answer" }] true).store =
          [{ id := "sess1", userId := "u1", messages := [], documents := [] }]
        ∨ ∃ row : ChatSessionDto,
            (streamMistralChat [{ id := "sess1", userId := "u1", messages := [], documents := [] }]
                [] "u1" "hello" (some "sess1") "fresh" []
                [{ usage := none, content := some "partial answer" }] true).store =
              [{ id := "sess1", userId := "u1", messages := [], documents := [] }] ++ [row]
            ∧ row.messages = [] ∧ row.documents = []) :=
  claim_C2_no_partial_persistence
    [{ id := "sess1", userId := "u1", messages := [], documents := [] }]
    [] "u1" "hello" (some "sess1") "fresh" []
    [{ usage := none, content := some "partial answer" }] (by decide)

/-! ### The relay loop's usage accumulator -/

theorem getLast?_cons_some :
    ∀ (ys : List UsageInfo) (y : UsageInfo), ∃ v, (y :: ys).getLast? = some v := by
  intro ys
  induction ys with
  | nil => intro y; exact ⟨y, rfl⟩
  | cons z zs ih =>
    intro y
    rw [List.getLast?_cons_cons]
    exact ih z

theorem relayUsage_foldl_general (l : List StreamChunk) :
    ∀ acc : Option UsageInfo,
      l.foldl
        (fun tokenUsage c =>
          match c.usage with
          | some u => some u
          | none => tokenUsage)
        acc =
      match (l.filterMap StreamChunk.usage).getLast? with
      | some u => some u
      | none => acc := by
  induction l with
  | nil => intro acc; rfl
  | cons c t ih =>
    intro acc
    cases hc : c.usage with
    | none =>
      simp only [List.foldl_cons, List.filterMap_cons, hc]
      exact ih acc
    | some u =>
      simp only [List.foldl_cons, List.filterMap_cons, hc]
      rw [ih (some u)]
      cases hfm : t.filterMap StreamChunk.usage with
      | nil => rfl
      | cons y ys =>
        obtain ⟨v, hv⟩ := getLast?_cons_some ys y
        rw [hv, List.getLast?_cons_cons, hv]

theorem relayUsage_eq_getLast (chunks : List StreamChunk) :
    relayUsage chunks = (chunks.filterMap StreamChunk.usage).getLast? := by
  unfold relayUsage
  rw [relayUsage_foldl_general chunks none]
  cases (chunks.filterMap StreamChunk.usage).getLast? <;> rfl

/-- C9: the usage handed to persistence after the relay loop is the usage
field of the last chunk that carries one (later values overwrite earlier
ones); with no usage-bearing chunk, no usage row is recorded. -/
theorem claim_C9_last_usage_wins (store : List ChatSessionDto)
    (ledger : List UsageRecord) (uid prompt cid freshId : String)
    (fileResults : List (Option OCRResponse)) (chunks : List StreamChunk)
    (s : ChatSessionDto)
    (hp : prompt ≠ "") (hs : getChatSessionById store cid uid = some s) :
    (streamMistralChat store ledger uid prompt (some cid) freshId fileResults
        chunks false).ledger =
      match (chunks.filterMap StreamChunk.usage).getLast? with
      | some u => ledger ++
          [{ userId := uid, usageType := UsageKind.chat, tokenCount := u.totalTokens }]
      | none => ledger := by
  rw [streamMistralChat_success_resolved store ledger uid prompt cid freshId fileResults
        chunks s hp hs]
  show (match relayUsage chunks with
        | some u => trackUserUsage ledger uid UsageKind.chat u.totalTokens
        | none => ledger) = _
  rw [relayUsage_eq_getLast]
  cases (chunks.filterMap StreamChunk.usage).getLast? with
  | some u => rfl
  | none => rfl

/-- Witness for `claim_C9_last_usage_wins`: two usage-bearing chunks, the
later one wins. -/
theorem claim_C9_last_usage_wins_witness :
    (streamMistralChat [{ id := "sess1", userId := "u1", messages := [], documents := [] }]
        [] "u1" "hi" (some "sess1") "fresh" []
        [{ usage := some { totalTokens := 5 }, content := some "a" },
         { usage := none, content := some "b" },
         { usage := some { totalTokens := 9 }, content := none }] false).ledger =
      match ([{ usage := some { totalTokens := 5 }, content := some "a" },
              { usage := none, content := some "b" },
              { usage := some { totalTokens := 9 }, content := none }] :
              List StreamChunk).filterMap StreamChunk.usage |>.getLast? with
      | some u => [] ++
          [{ userId := "u1", usageType := UsageKind.chat, tokenCount := u.totalTokens }]
      | none => [] :=
  claim_C9_last_usage_wins
    [{ id := "sess1", userId := "u1", messages := [], documents := [] }]
    [] "u1" "hi" "sess1" "fresh" []
    [{ usage := some { totalTokens := 5 }, content := some "a" },
     { usage := none, content := some "b" },
     { usage := some { totalTokens := 9 }, content := none }]
    { id := "sess1", userId := "u1", messages := [], documents := [] }
    (by decide) (by decide)

/-! ### Per-file failure isolation -/

theorem filterMap_id_length_ocr (l : List (Option OCRResponse)) :
    (l.filterMap id).length + l.countP (fun o => o.isNone) = l.length := by
  induction l with
  | nil => rfl
  | cons a t ih =>
    cases a with
    | none =>
      have h1 : ((none :: t : List (Option OCRResponse)).filterMap id) = t.filterMap id := by
        simp [List.filterMap_cons]
      have h2 : ((none :: t : List (Option OCRResponse)).countP (fun o => o.isNone)) =
          t.countP (fun o => o.isNone) + 1 := by
        simp [List.countP_cons]
      rw [h1, h2]
      simp only [List.length_cons]
      omega
    | some x =>
      have h1 : ((some x :: t : List (Option OCRResponse)).filterMap id) =
          x :: t.filterMap id := by
        simp [List.filterMap_cons]
      have h2 : ((some x :: t : List (Option OCRResponse)).countP (fun o => o.isNone)) =
          t.countP (fun o => o.isNone) := by
        simp [List.countP_cons]
      rw [h1, h2]
      simp only [List.length_cons]
      omega

/-- C4: with exactly one of K uploads failing extraction, the request
still completes and streams normally, and the persisted documents grow by
exactly K-1 entries. -/
theorem claim_C4_one_failed_document (store : List ChatSessionDto)
    (ledger : List UsageRecord) (uid prompt cid freshId : String)
    (fileResults : List (Option OCRResponse)) (chunks : List StreamChunk)
    (s : ChatSessionDto)
    (hp : prompt ≠ "") (hs : getChatSessionById store cid uid = some s)
    (hone : fileResults.countP (fun o => o.isNone) = 1) :
    (streamMistralChat store ledger uid prompt (some cid) freshId fileResults
        chunks false).ok = true
    ∧ (streamMistralChat store ledger uid prompt (some cid) freshId fileResults
        chunks false).streamed = relayText chunks
    ∧ ∃ s2, getChatSessionById
          (streamMistralChat store ledger uid prompt (some cid) freshId fileResults
            chunks false).store cid uid = some s2
        ∧ s2.documents = s.documents ++ fileResults.filterMap id
        ∧ s2.documents.length = s.documents.length + (fileResults.length - 1) := by
  rw [streamMistralChat_success_resolved store ledger uid prompt cid freshId fileResults
        chunks s hp hs]
  refine ⟨rfl, rfl, ?_⟩
  refine ⟨_, resolve_map_applyUpdate store cid uid _ _ s hs, rfl, ?_⟩
  have hlen := filterMap_id_length_ocr fileResults
  rw [hone] at hlen
  show (s.documents ++ fileResults.filterMap id).length = _
  rw [List.length_append]
  omega

/-- Witness for `claim_C4_one_failed_document`: two uploads, the second
fails. -/
theorem claim_C4_one_failed_document_witness :
    (streamMistralChat [{ id := "sess1", userId := "u1", messages := [], documents := [] }]
        [] "u1" "check these" (some "sess1") "fresh"
        [some { pages := [{ index := 0, markdown := "ok page", images := [] }],
                fileName := some "good.pdf" },
         none]
        [{ usage := none, content := some "done" }] false).ok = true
    ∧ (streamMistralChat [{ id := "sess1", userId := "u1", messages := [], documents := [] }]
        [] "u1" "check these" (some "sess1") "fresh"
        [some { pages := [{ index := 0, markdown := "ok page", images := [] }],
                fileName := some "good.pdf" },
         none]
        [{ usage := none, content := some "done" }] false).streamed =
        relayText [{ usage := none, content := some "done" }]
    ∧ ∃ s2, getChatSessionById
          (streamMistralChat [{ id := "sess1", userId := "u1", messages := [], documents := [] }]
            [] "u1" "check these" (some "sess1") "fresh"
            [some { pages := [{ index := 0, markdown := "ok page", images := [] }],
                    fileName := some "good.pdf" },
             none]
            [{ usage := none, content := some "done" }] false).store "sess1" "u1" = some s2
        ∧ s2.documents =
            ({ id := "sess1", userId := "u1", messages := [], documents := [] } :
              ChatSessionDto).documents ++
              ([some { pages := [{ index := 0, markdown := "ok page", images := [] }],
                       fileName := some "good.pdf" },
                none] : List (Option OCRResponse)).filterMap id
        ∧ s2.documents.length =
            ({ id := "sess1", userId := "u1", messages := [], documents := [] } :
              ChatSessionDto).documents.length +
              (([some { pages := [{ index := 0, markdown := "ok page", images := [] }],
                        fileName := some "good.pdf" },
                 none] : List (Option OCRResponse)).length - 1) :=
  claim_C4_one_failed_document
    [{ id := "sess1", userId := "u1", messages := [], documents := [] }]
    [] "u1" "check these" "sess1" "fresh"
    [some { pages := [{ index := 0, markdown := "ok page", images := [] }],
            fileName := some "good.pdf" },
     none]
    [{ usage := none, content := some "done" }]
    { id := "sess1", userId := "u1", messages := [], documents := [] }
    (by decide) (by decide) (by decide)

/-- C5: a supplied session id that does not resolve is not an error: a
fresh empty session is created, its durable id is used for the rest of the
request (the exchange is persisted under it) and reported in the header. -/
theorem claim_C5_stale_id_becomes_new_session (store : List ChatSessionDto)
    (ledger : List UsageRecord) (uid prompt cid freshId : String)
    (fileResults : List (Option OCRResponse)) (chunks : List StreamChunk)
    (hp : prompt ≠ "") (hres : getChatSessionById store cid uid = none)
    (hfid : freshId ≠ "") (hfresh : ∀ t ∈ store, t.id ≠ freshId) :
    (streamMistralChat store ledger uid prompt (some cid) freshId fileResults
        chunks false).ok = true
    ∧ (streamMistralChat store ledger uid prompt (some cid) freshId fileResults
        chunks false).headerId = some freshId
    ∧ getChatSessionById
        (streamMistralChat store ledger uid prompt (some cid) freshId fileResults
          chunks false).store freshId uid =
        some { id := freshId, userId := uid,
               messages := [{ role := Role.user, content := MessageContent.str prompt },
                            { role := Role.assistant,
                              content := MessageContent.str (relayText chunks) }],
               documents := fileResults.filterMap id } := by
  rw [streamMistralChat_unresolved_path store ledger uid prompt cid freshId fileResults
        chunks false hp hres hfid]
  have hrow : getChatSessionById
      (store ++ [{ id := freshId, userId := uid, messages := [], documents := [] }])
      freshId uid =
      some { id := freshId, userId := uid, messages := [], documents := [] } :=
    resolve_after_create store uid freshId [] [] hfresh
  have hcore := streamMistralChatCore_success
    (store ++ [({ id := freshId, userId := uid, messages := [], documents := [] } :
        ChatSessionDto)])
    ledger uid prompt freshId [] [] fileResults chunks
    ({ id := freshId, userId := uid, messages := [], documents := [] } : ChatSessionDto) hrow
  rw [hcore]
  refine ⟨rfl, rfl, ?_⟩
  have hres2 := resolve_map_applyUpdate
    (store ++ [{ id := freshId, userId := uid, messages := [], documents := [] }])
    freshId uid
    (({ id := freshId, userId := uid, messages := [], documents := [] } :
        ChatSessionDto).messages ++
      [{ role := Role.user, content := MessageContent.str prompt },
       { role := Role.assistant, content := MessageContent.str (relayText chunks) }])
    (({ id := freshId, userId := uid, messages := [], documents := [] } :
        ChatSessionDto).documents ++ fileResults.filterMap id)
    { id := freshId, userId := uid, messages := [], documents := [] } hrow
  exact hres2

/-- Witness for `claim_C5_stale_id_becomes_new_session`: a guessed id
against a store holding only someone else's session. -/
theorem claim_C5_stale_id_becomes_new_session_witness :
    (streamMistralChat [{ id := "other", userId := "u2", messages := [], documents := [] }]
        [] "u1" "hello" (some "stale-id") "fresh-id" []
        [{ usage := none, content := some "answer" }] false).ok = true
    ∧ (streamMistralChat [{ id := "other", userId := "u2", messages := [], documents := [] }]
        [] "u1" "hello" (some "stale-id") "fresh-id" []
        [{ usage := none, content := some "answer" }] false).headerId = some "fresh-id"
    ∧ getChatSessionById
        (streamMistralChat [{ id := "other", userId := "u2", messages := [], documents := [] }]
          [] "u1" "hello" (some "stale-id") "fresh-id" []
          [{ usage := none, content := some "answer" }] false).store "fresh-id" "u1" =
        some { id := "fresh-id", userId := "u1",
               messages := [{ role := Role.user, content := MessageContent.str "hello" },
                            { role := Role.assistant,
                              content := MessageContent.str
                                (relayText [{ usage := none, content := some "answer" }]) }],
               documents := ([] : List (Option OCRResponse)).filterMap id } :=
  claim_C5_stale_id_becomes_new_session
    [{ id := "other", userId := "u2", messages := [], documents := [] }]
    [] "u1" "hello" "stale-id" "fresh-id" []
    [{ usage := none, content := some "answer" }]
    (by decide) (by decide) (by decide) (by decide)

/-! ### Pageless documents -/

theorem docContextMessage_none_of_no_pages (d : OCRResponse) (h : d.pages = []) :
    docContextMessage d = none := by
  unfold docContextMessage
  rw [h]
  rfl

theorem injectDocumentContext_no_ctx (msgs : List MistralMessage) (docs : List OCRResponse)
    (h : documentContextMessages docs = []) :
    injectDocumentContext msgs docs = msgs := by
  unfold injectDocumentContext
  rw [h]
  cases hidx : lastUserIndex msgs with
  | none => simp
  | some i => simp [spliceInsert, List.take_append_drop]

theorem sendMessageStreamMessages_pageless_append (msgs : List MistralMessage)
    (docs : List OCRResponse) (d : OCRResponse) (hd : docContextMessage d = none) :
    sendMessageStreamMessages msgs (docs ++ [d]) = sendMessageStreamMessages msgs docs := by
  have hctx : documentContextMessages (docs ++ [d]) = documentContextMessages docs := by
    unfold documentContextMessages
    rw [List.filterMap_append]
    simp [hd]
  unfold sendMessageStreamMessages
  by_cases hnil : docs = []
  · subst hnil
    rw [if_pos (by simp), if_neg (by simp)]
    apply injectDocumentContext_no_ctx
    rw [hctx]
    rfl
  · rw [if_pos (by simp), if_pos (List.length_pos.mpr hnil)]
    unfold injectDocumentContext
    rw [hctx]

/-- C8: a zero-page document yields no synthesized context message for
the provider (the message list is the one its absence would produce), yet
it is still appended to the session's persisted documents. -/
theorem claim_C8_pageless_documents_recorded (store : List ChatSessionDto)
    (ledger : List UsageRecord) (uid prompt cid freshId : String)
    (chunks : List StreamChunk) (s : ChatSessionDto) (d : OCRResponse)
    (hp : prompt ≠ "") (hs : getChatSessionById store cid uid = some s)
    (hpg : d.pages = []) :
    documentContextMessages (s.documents ++ [d]) = documentContextMessages s.documents
    ∧ (streamMistralChat store ledger uid prompt (some cid) freshId [some d]
        chunks false).sentMessages =
      some (sendMessageStreamMessages
        ({ role := Role.system, content := MessageContent.str legaltrainPrompt } ::
          (s.messages ++ [{ role := Role.user, content := MessageContent.str prompt }]))
        s.documents)
    ∧ ∃ s2, getChatSessionById
          (streamMistralChat store ledger uid prompt (some cid) freshId [some d]
            chunks false).store cid uid = some s2
        ∧ s2.documents = s.documents ++ [d] := by
  have hd := docContextMessage_none_of_no_pages d hpg
  constructor
  · unfold documentContextMessages
    rw [List.filterMap_append]
    simp [hd]
  rw [streamMistralChat_success_resolved store ledger uid prompt cid freshId [some d]
        chunks s hp hs]
  constructor
  · show some (sendMessageStreamMessages _ (s.documents ++ [d])) = _
    rw [sendMessageStreamMessages_pageless_append _ s.documents d hd]
  · exact ⟨_, resolve_map_applyUpdate store cid uid _ _ s hs, rfl⟩

/-- Witness for `claim_C8_pageless_documents_recorded` with an empty OCR
result. -/
theorem claim_C8_pageless_documents_recorded_witness :
    documentContextMessages
        (({ id := "sess1", userId := "u1", messages := [], documents := [] } :
            ChatSessionDto).documents ++ [{ pages := [], fileName := some "empty.pdf" }]) =
      documentContextMessages
        ({ id := "sess1", userId := "u1", messages := [], documents := [] } :
          ChatSessionDto).documents
    ∧ (streamMistralChat [{ id := "sess1", userId := "u1", messages := [], documents := [] }]
        [] "u1" "hi" (some "sess1") "fresh"
        [some { pages := [], fileName := some "empty.pdf" }]
        [{ usage := none, content := some "ok" }] false).sentMessages =
      some (sendMessageStreamMessages
        ({ role := Role.system, content := MessageContent.str legaltrainPrompt } ::
          (({ id := "sess1", userId := "u1", messages := [], documents := [] } :
              ChatSessionDto).messages ++
            [{ role := Role.user, content := MessageContent.str "hi" }]))
        ({ id := "sess1", userId := "u1", messages := [], documents := [] } :
          ChatSessionDto).documents)
    ∧ ∃ s2, getChatSessionById
          (streamMistralChat [{ id := "sess1", userId := "u1", messages := [], documents := [] }]
            [] "u1" "hi" (some "sess1") "fresh"
            [some { pages := [], fileName := some "empty.pdf" }]
            [{ usage := none, content := some "ok" }] false).store "sess1" "u1" = some s2
        ∧ s2.documents =
            ({ id := "sess1", userId := "u1", messages := [], documents := [] } :
              ChatSessionDto).documents ++ [{ pages := [], fileName := some "empty.pdf" }] :=
  claim_C8_pageless_documents_recorded
    [{ id := "sess1", userId := "u1", messages := [], documents := [] }]
    [] "u1" "hi" "sess1" "fresh"
    [{ usage := none, content := some "ok" }]
    { id := "sess1", userId := "u1", messages := [], documents := [] }
    { pages := [], fileName := some "empty.pdf" }
    (by decide) (by decide) (by decide)

/-! ### Sequences of successful requests (append-only history) -/

/-- The inputs of one successful request in a sequence against one
session id. -/
structure TurnRequest where
  prompt : String
  fileResults : List (Option OCRResponse)
  chunks : List StreamChunk
deriving DecidableEq, Repr

/-- The exchange a successful request appends: one user message with the
original prompt, then one assistant message with the accumulated text. -/
def turnMessages (r : TurnRequest) : List MistralMessage :=
  [{ role := Role.user, content := MessageContent.str r.prompt },
   { role := Role.assistant, content := MessageContent.str (relayText r.chunks) }]

/-- Run a sequence of requests, each against the same session id, with no
interleaving; the store is threaded through. -/
def runChatRequests (uid sid freshId : String) (store : List ChatSessionDto)
    (reqs : List TurnRequest) : List ChatSessionDto :=
  reqs.foldl
    (fun st r =>
      (streamMistralChat st [] uid r.prompt (some sid) freshId r.fileResults
        r.chunks false).store)
    store

theorem turnMessages_flatten_length (reqs : List TurnRequest) :
    ((reqs.map turnMessages).flatten).length = 2 * reqs.length := by
  induction reqs with
  | nil => rfl
  | cons r rs ih =>
    simp only [List.map_cons, List.flatten_cons, List.length_append, ih, List.length_cons]
    simp [turnMessages]
    omega

theorem runChatRequests_resolved (uid sid freshId : String) :
    ∀ (reqs : List TurnRequest) (store : List ChatSessionDto) (s : ChatSessionDto),
      getChatSessionById store sid uid = some s →
      (∀ r ∈ reqs, r.prompt ≠ "") →
      getChatSessionById (runChatRequests uid sid freshId store reqs) sid uid =
        some { s with
                 messages := s.messages ++ (reqs.map turnMessages).flatten,
                 documents := s.documents ++
                   (reqs.map (fun r => r.fileResults.filterMap id)).flatten } := by
  intro reqs
  induction reqs with
  | nil =>
    intro store s hs hok
    obtain ⟨sid0, uid0, ms, ds⟩ := s
    simpa [runChatRequests] using hs
  | cons r rs ih =>
    intro store s hs hok
    have hp : r.prompt ≠ "" := hok r (List.mem_cons_self r rs)
    have hstep := streamMistralChat_success_resolved store [] uid r.prompt sid freshId
      r.fileResults r.chunks s hp hs
    have hrun : runChatRequests uid sid freshId store (r :: rs) =
        runChatRequests uid sid freshId
          ((streamMistralChat store [] uid r.prompt (some sid) freshId r.fileResults
            r.chunks false).store) rs := rfl
    rw [hrun, hstep]
    have hs1 := resolve_map_applyUpdate store sid uid
      (s.messages ++ turnMessages r)
      (s.documents ++ r.fileResults.filterMap id) s hs
    have hrec := ih _ _ hs1 (fun x hx => hok x (List.mem_cons_of_mem r hx))
    rw [List.map_cons, List.flatten_cons, List.map_cons, List.flatten_cons,
      ← List.append_assoc, ← List.append_assoc]
    exact hrec

/-- C3: N successful, non-interleaved requests against one session each
append exactly one user message followed by one assistant message; the
final history is the pre-existing messages plus 2N appended ones, with the
prior messages untouched as a prefix. -/
theorem claim_C3_append_only_history (uid sid freshId : String)
    (store : List ChatSessionDto) (reqs : List TurnRequest) (s : ChatSessionDto)
    (hs : getChatSessionById store sid uid = some s)
    (hok : ∀ r ∈ reqs, r.prompt ≠ "") :
    ∃ s2, getChatSessionById (runChatRequests uid sid freshId store reqs) sid uid = some s2
      ∧ s2.messages = s.messages ++ (reqs.map turnMessages).flatten
      ∧ s2.messages.length = s.messages.length + 2 * reqs.length
      ∧ s2.documents = s.documents ++
          (reqs.map (fun r => r.fileResults.filterMap id)).flatten := by
  refine ⟨_, runChatRequests_resolved uid sid freshId reqs store s hs hok, rfl, ?_, rfl⟩
  show (s.messages ++ (reqs.map turnMessages).flatten).length = _
  rw [List.length_append, turnMessages_flatten_length]

/-- Witness for `claim_C3_append_only_history`: two successive requests
against one pre-existing session. -/
theorem claim_C3_append_only_history_witness :
    ∃ s2, getChatSessionById
        (runChatRequests "u1" "c1" "fresh"
          [{ id := "c1", userId := "u1",
             messages := [{ role := Role.user, content := MessageContent.str "old q" }],
             documents := [] }]
          [{ prompt := "first", fileResults := [],
             chunks := [{ usage := none, content := some "A" }] },
           { prompt := "second", fileResults := [], chunks := [] }]) "c1" "u1" = some s2
      ∧ s2.messages =
          ({ id := "c1", userId := "u1",
             messages := [{ role := Role.user, content := MessageContent.str "old q" }],
             documents := [] } : ChatSessionDto).messages ++
            (([{ prompt := "first", fileResults := [],
                 chunks := [{ usage := none, content := some "A" }] },
               { prompt := "second", fileResults := [], chunks := [] }] :
               List TurnRequest).map turnMessages).flatten
      ∧ s2.messages.length =
          ({ id := "c1", userId := "u1",
             messages := [{ role := Role.user, content := MessageContent.str "old q" }],
             documents := [] } : ChatSessionDto).messages.length +
            2 * ([{ prompt := "first", fileResults := [],
                    chunks := [{ usage := none, content := some "A" }] },
                  { prompt := "second", fileResults := [], chunks := [] }] :
                  List TurnRequest).length
      ∧ s2.documents =
          ({ id := "c1", userId := "u1",
             messages := [{ role := Role.user, content := MessageContent.str "old q" }],
             documents := [] } : ChatSessionDto).documents ++
            (([{ prompt := "first", fileResults := [],
                 chunks := [{ usage := none, content := some "A" }] },
               { prompt := "second", fileResults := [], chunks := [] }] :
               List TurnRequest).map (fun r => r.fileResults.filterMap id)).flatten :=
  claim_C3_append_only_history "u1" "c1" "fresh"
    [{ id := "c1", userId := "u1",
       messages := [{ role := Role.user, content := MessageContent.str "old q" }],
       documents := [] }]
    [{ prompt := "first", fileResults := [],
       chunks := [{ usage := none, content := some "A" }] },
     { prompt := "second", fileResults := [], chunks := [] }]
    { id := "c1", userId := "u1",
      messages := [{ role := Role.user, content := MessageContent.str "old q" }],
      documents := [] }
    (by decide) (by decide)

/-! ## Document analysis: analyzeChatDocuments and getStructuredJsonResponse

The provider's structured answer is modelled at the JSON.parse boundary:
`parse` stands for JSON.parse on the returned content string (none =
throws), and a parsed value is either an array of findings or some other
JSON value, since the `as AnalysisResult` cast checks nothing. -/

/-- Severity levels from utils/types.ts. -/
inductive AnnotationLevel where
  | info
  | warning
  | error
deriving DecidableEq, Repr

/-- One finding, modelling the `Annotation` interface of utils/types.ts
({level, description, metadata}). -/
structure AnalysisItem where
  level : AnnotationLevel
  description : String
  metadata : String
deriving DecidableEq, Repr

/-- Result of a successful JSON.parse of the model's answer: either an
array of findings (AnalysisResult) or any other JSON value, which the
unchecked cast passes through unchanged. -/
inductive ParsedJson where
  | findings (items : List AnalysisItem)
  | nonArray
deriving DecidableEq, Repr

/-- getStructuredJsonResponse: take `choices[0].message.content`; missing
content or non-string content throws; JSON.parse failure throws; a parsed
value of any shape is returned together with the usage field. -/
def getStructuredJsonResponse (content : Option MessageContent) (usage : Option UsageInfo)
    (parse : String → Option ParsedJson) :
    Except String (ParsedJson × Option UsageInfo) :=
  match content with
  | some (MessageContent.str s) =>
    match parse s with
    | some j => Except.ok (j, usage)
    | none => Except.error "Failed to parse Mistral response as JSON"
  | some (MessageContent.chunks _) =>
    Except.error "Mistral response content is not a string and cannot be parsed as JSON"
  | none => Except.error "Mistral response did not contain expected content"

/-- One row of the document_analysis table (createDocumentAnalysis). -/
structure AnalysisRecord where
  chatId : String
  userId : String
  prompt : String
  result : ParsedJson
deriving DecidableEq, Repr

/-- Observable outcome of one analyzeChatDocuments request. -/
structure AnalyzeOutcome where
  status : Nat
  analysis : Option ParsedJson
  ledger : List UsageRecord
  analyses : List AnalysisRecord
deriving DecidableEq, Repr

/-- analyzeChatDocuments: resolve and authorize the session, require
documents, call the structured-response service; its thrown errors are
caught and the analysis silently defaults to the empty array, after which
the record is stored and HTTP 200 returned. -/
def analyzeChatDocuments (store : List ChatSessionDto) (ledger : List UsageRecord)
    (analyses : List AnalysisRecord) (chatId uid : String) (prompt : Option String)
    (content : Option MessageContent) (usage : Option UsageInfo)
    (parse : String → Option ParsedJson) : AnalyzeOutcome :=
  match getChatSessionById store chatId uid with
  | none => { status := 404, analysis := none, ledger := ledger, analyses := analyses }
  | some chatSession =>
    if chatSession.userId ≠ uid then
      { status := 403, analysis := none, ledger := ledger, analyses := analyses }
    else if chatSession.documents.length = 0 then
      { status := 400, analysis := none, ledger := ledger, analyses := analyses }
    else
      let promptText :=
        match prompt with
        | some p => if p = "" then "Standard document analysis" else p
        | none => "Standard document analysis"
      match getStructuredJsonResponse content usage parse with
      | Except.ok ru =>
        let ledger2 :=
          match ru.snd with
          | some u => trackUserUsage ledger uid UsageKind.analysis u.totalTokens
          | none => ledger
        { status := 200, analysis := some ru.fst, ledger := ledger2,
          analyses := analyses ++
            [{ chatId := chatId, userId := uid, prompt := promptText, result := ru.fst }] }
      | Except.error _ =>
        { status := 200, analysis := some (ParsedJson.findings []), ledger := ledger,
          analyses := analyses ++
            [{ chatId := chatId, userId := uid, prompt := promptText,
               result := ParsedJson.findings [] }] }

/-- C7 evaluation at the failing input: the service throws on unparseable
content, but the controller catches the error and answers HTTP 200 with
the analysis silently defaulted to the empty findings list — the claimed
hard failure never reaches the caller. The unchecked cast likewise lets a
parsed non-array value through as a success. -/
theorem claim_C7_parse_failure_defaults_empty :
    getStructuredJsonResponse (some (MessageContent.str "not valid json")) none
        (fun _ => none) =
      Except.error "Failed to parse Mistral response as JSON"
    ∧ analyzeChatDocuments
        [{ id := "c1", userId := "u1", messages := [],
           documents := [{ pages := [{ index := 0, markdown := "text", images := [] }],
                           fileName := some "doc.pdf" }] }]
        [] [] "c1" "u1" none
        (some (MessageContent.str "not valid json")) none (fun _ => none) =
      { status := 200, analysis := some (ParsedJson.findings []), ledger := [],
        analyses := [{ chatId := "c1", userId := "u1",
                       prompt := "Standard document analysis",
                       result := ParsedJson.findings [] }] }
    ∧ getStructuredJsonResponse (some (MessageContent.str "{}")) none
        (fun _ => some ParsedJson.nonArray) =
      Except.ok (ParsedJson.nonArray, none) := by
  refine ⟨rfl, ?_, rfl⟩
  rfl

end AssistantApi
